import Mathlib

/-!
Shallow embedding of the Flat-prediction repository: a tabular real-estate
price regression workflow made of independent scripts
(`train_model_clean.py`, `validate_cv.py`, `predict_clean.py`,
`feature_importance.py`, `check_model_accuracy.py`, `eda_report.py`, ...).

The data model is a typed column-oriented table (pandas `DataFrame`);
preprocessing mirrors scikit-learn's `SimpleImputer`, `OneHotEncoder`,
`ColumnTransformer` and `Pipeline`; the Random-Forest regressor is an
abstract regressor parameter (its internals are library code the repository
delegates to).  Machine floats are modelled by `ℚ`.
-/

namespace FlatPred

/-- Column dtype as pandas distinguishes it in these scripts: numeric
(`int`/`float`) versus `object` (strings). -/
inductive Dtype
  | num
  | obj
deriving DecidableEq, Repr

/-- The cell contents of one column: numeric cells or object (string) cells,
with `none` standing for a missing value (`NaN`). -/
inductive ColData
  | num (vals : List (Option ℚ))
  | obj (vals : List (Option String))
deriving DecidableEq, Repr

/-- The dtype of a column's data. -/
def ColData.dtype : ColData → Dtype
  | .num _ => .num
  | .obj _ => .obj

/-- Number of cells stored in the column. -/
def ColData.length : ColData → Nat
  | .num vs => vs.length
  | .obj vs => vs.length

/-- A named column. -/
structure Col where
  name : String
  data : ColData
deriving DecidableEq, Repr

/-- A pandas `DataFrame`: a row count and a list of named, typed columns.
The row count is carried explicitly, as pandas keeps the shape even for a
frame with no columns. -/
structure DataFrame where
  nrows : Nat
  cols : List Col
deriving DecidableEq, Repr

/-- Well-formedness: every column holds exactly `nrows` cells. -/
def DataFrame.WF (df : DataFrame) : Prop :=
  ∀ c ∈ df.cols, c.data.length = df.nrows

instance (df : DataFrame) : Decidable df.WF := by
  unfold DataFrame.WF; infer_instance

/-- `df.columns` — the column names, in order. -/
def DataFrame.columns (df : DataFrame) : List String :=
  df.cols.map (·.name)

/-- The (name, dtype) schema of the frame, in column order. -/
def DataFrame.schema (df : DataFrame) : List (String × Dtype) :=
  df.cols.map (fun c => (c.name, c.data.dtype))

/-- `df.drop(columns=names)`: remove the named columns. -/
def DataFrame.drop (df : DataFrame) (names : List String) : DataFrame :=
  ⟨df.nrows, df.cols.filter (fun c => ¬ names.contains c.name)⟩

/-- `df.select_dtypes(include=["object"]).columns.tolist()` — names of the
object-dtype columns, in order. -/
def DataFrame.selectObjectCols (df : DataFrame) : List String :=
  df.cols.filterMap (fun c => match c.data with
    | .obj _ => some c.name
    | .num _ => none)

/-- Look a column up by name (first match, as pandas column labels here are
unique). -/
def DataFrame.findCol (df : DataFrame) (n : String) : Option Col :=
  df.cols.find? (fun c => c.name = n)

/-- The raw data of column `n`, or an empty numeric column when absent. -/
def DataFrame.colData (df : DataFrame) (n : String) : ColData :=
  ((df.findCol n).map (·.data)).getD (.num [])

/-- The numeric cells of column `n` (empty when the column is absent or not
numeric). -/
def DataFrame.numVals (df : DataFrame) (n : String) : List (Option ℚ) :=
  match df.colData n with
  | .num vs => vs
  | .obj _ => []

/-- The object cells of column `n` (empty when absent or not object). -/
def DataFrame.objVals (df : DataFrame) (n : String) : List (Option String) :=
  match df.colData n with
  | .num _ => []
  | .obj vs => vs

/-- Select the rows at the given positions, in order (`df.iloc[idx]`). -/
def ColData.selectRows (cd : ColData) (idx : List Nat) : ColData :=
  match cd with
  | .num vs => .num (idx.map (fun i => vs.getD i none))
  | .obj vs => .obj (idx.map (fun i => vs.getD i none))

/-- Select the rows of the whole frame at the given positions. -/
def DataFrame.selectRows (df : DataFrame) (idx : List Nat) : DataFrame :=
  ⟨idx.length, df.cols.map (fun c => ⟨c.name, c.data.selectRows idx⟩)⟩

/-!  ## Preprocessing: `SimpleImputer`, `OneHotEncoder`, `ColumnTransformer`

Models of the scikit-learn transformers the scripts instantiate.
-/

/-- The non-missing numeric values of column `n`. -/
def observedNum (df : DataFrame) (n : String) : List ℚ :=
  (df.numVals n).filterMap id

/-- The non-missing object values of column `n`. -/
def observedObj (df : DataFrame) (n : String) : List String :=
  (df.objVals n).filterMap id

/-- `numpy.median`: middle element of the sorted values, or the average of
the two middle elements for an even count (0 for an empty list — the scripts
never impute a column with no observed value). -/
def medianOf (xs : List ℚ) : ℚ :=
  let s := xs.insertionSort (· ≤ ·)
  let n := s.length
  if n = 0 then 0
  else if n % 2 = 1 then s.getD (n / 2) 0
  else (s.getD (n / 2 - 1) 0 + s.getD (n / 2) 0) / 2

/-- How many times `a` occurs in `l`. -/
def countEq (a : String) (l : List String) : Nat :=
  l.countP (fun x => x = a)

/-- `SimpleImputer(strategy="most_frequent")` statistic: the most frequent
value, the lexicographically smallest on ties (scipy's mode). -/
def modeOf (xs : List String) : String :=
  let u := (xs.dedup).insertionSort (· ≤ ·)
  match u with
  | [] => ""
  | c :: cs => cs.foldl (fun best x =>
      if countEq best xs < countEq x xs then x else best) c

/-- `OneHotEncoder` row encoding: one indicator per fitted category; a value
outside the fitted categories yields all zeros (`handle_unknown="ignore"`). -/
def oneHot (cats : List String) (v : String) : List ℚ :=
  cats.map (fun c => if v = c then 1 else 0)

/-- The fitted state for one numeric column: its training median
(`SimpleImputer(strategy="median").statistics_`). -/
structure NumFit where
  name : String
  median : ℚ
deriving DecidableEq, Repr

/-- The fitted state for one categorical column: the training mode and the
sorted category list learned by `OneHotEncoder` after imputation. -/
structure CatFit where
  name : String
  mode : String
  categories : List String
deriving DecidableEq, Repr

/-- The fitted `ColumnTransformer`: the input schema seen at fit time plus
the per-column fitted statistics. -/
structure FittedPre where
  schemaIn : List (String × Dtype)
  numFits : List NumFit
  catFits : List CatFit
deriving DecidableEq, Repr

/-- Fit the `ColumnTransformer` of the scripts on `X`: median per numeric
column, and mode plus sorted categories (of the imputed column) per
categorical column. -/
def fitPre (numCols catCols : List String) (X : DataFrame) : FittedPre :=
  { schemaIn := X.schema
  , numFits := numCols.map (fun n => ⟨n, medianOf (observedNum X n)⟩)
  , catFits := catCols.map (fun n =>
      let m := modeOf (observedObj X n)
      let imputed := (X.objVals n).map (fun v => v.getD m)
      ⟨n, m, (imputed.dedup).insertionSort (· ≤ ·)⟩) }

/-- Transform row `i` of `df`: numeric block (median-imputed cells of the
numeric columns, in order) followed by the concatenated one-hot blocks of
the categorical columns (mode-imputed first). -/
def transformRow (fp : FittedPre) (df : DataFrame) (i : Nat) : List ℚ :=
  (fp.numFits.map (fun nf => (((df.numVals nf.name).getD i none).getD nf.median)))
    ++ fp.catFits.flatMap (fun cf =>
        oneHot cf.categories (((df.objVals cf.name).getD i none).getD cf.mode))

/-- Transform every row of `df` with the fitted preprocessing. -/
def transformAll (fp : FittedPre) (df : DataFrame) : List (List ℚ) :=
  (List.range df.nrows).map (transformRow fp df)

/-- Transform with scikit-learn's feature-name check: raises (`.error`)
when the frame's columns do not match the columns seen at fit time. -/
def transformChecked (fp : FittedPre) (df : DataFrame) :
    Except String (List (List ℚ)) :=
  if df.schema = fp.schemaIn then .ok (transformAll fp df)
  else .error "The feature names should match those that were passed during fit"

/-!  ## Pipeline over an abstract regressor

The Random Forest itself is library code; the scripts only compose it.  It
is modelled as an abstract regressor: a fit function producing a model from
the transformed matrix and the targets, and a per-row predict function.
-/

/-- An abstract regressor (`RandomForestRegressor` at the scripts' usage
sites: fit on a numeric matrix and targets, then predict row by row). -/
structure Regressor (M : Type) where
  fit : List (List ℚ) → List ℚ → M
  predictRow : M → List ℚ → ℚ

/-- A fitted two-stage `Pipeline`: the fitted preprocessing and the fitted
model, kept together as a single unit. -/
structure FittedPipeline (M : Type) where
  pre : FittedPre
  model : M

/-- `pipeline.fit(X, y)`: fit the preprocessing on `X`, transform `X`, and
fit the regressor on the transformed matrix. -/
def pipelineFit {M : Type} (reg : Regressor M) (numCols catCols : List String)
    (X : DataFrame) (y : List ℚ) : FittedPipeline M :=
  let fp := fitPre numCols catCols X
  ⟨fp, reg.fit (transformAll fp X) y⟩

/-- `pipeline.predict(df)`: transform `df` with the preprocessing fitted at
training time (checking feature names), then predict each transformed row. -/
def pipelinePredict {M : Type} (reg : Regressor M) (p : FittedPipeline M)
    (df : DataFrame) : Except String (List ℚ) :=
  (transformChecked p.pre df).map (fun rows => rows.map (reg.predictRow p.model))

/-!  ## Configuration literals of the scripts

`train_model_clean.py` and `validate_cv.py` construct their pipelines with
literal parameters; these records transcribe them.
-/

/-- Imputation strategy, as passed to `SimpleImputer(strategy=...)`. -/
inductive ImputeStrategy
  | median
  | most_frequent
deriving DecidableEq, Repr

/-- `OneHotEncoder(handle_unknown=...)`. -/
inductive HandleUnknown
  | ignore
  | error
deriving DecidableEq, Repr

/-- The `RandomForestRegressor(...)` constructor arguments used. -/
structure RFConfig where
  n_estimators : Nat
  random_state : Int
  n_jobs : Int
deriving DecidableEq, Repr

/-- The full two-stage pipeline configuration: the preprocessing strategies
of stage one and the Random Forest parameters of stage two. -/
structure PipelineConfig where
  numImputer : ImputeStrategy
  catImputer : ImputeStrategy
  onehotHandleUnknown : HandleUnknown
  rf : RFConfig
deriving DecidableEq, Repr

/-- The pipeline built by `train_model_clean.py` (lines 125-154). -/
def train_pipeline_config : PipelineConfig :=
  { numImputer := .median
  , catImputer := .most_frequent
  , onehotHandleUnknown := .ignore
  , rf := ⟨400, 42, -1⟩ }

/-- The pipeline built by `validate_cv.py` (lines 30-55). -/
def cv_pipeline_config : PipelineConfig :=
  { numImputer := .median
  , catImputer := .most_frequent
  , onehotHandleUnknown := .ignore
  , rf := ⟨400, 42, -1⟩ }

/-- `train_test_split(..., test_size, random_state)` arguments. -/
structure SplitConfig where
  test_size : ℚ
  random_state : Int
deriving DecidableEq, Repr

/-- The split call of `train_model_clean.py` (lines 161-165). -/
def train_split_config : SplitConfig := ⟨1/5, 42⟩

/-- The split call of `check_model_accuracy.py` (lines 47-49). -/
def check_split_config : SplitConfig := ⟨1/5, 42⟩

/-- The `KFold(...)` arguments of `validate_cv.py` (line 58). -/
structure KFoldConfig where
  n_splits : Nat
  shuffle : Bool
  random_state : Int
deriving DecidableEq, Repr

/-- `KFold(n_splits=5, shuffle=True, random_state=42)`. -/
def cv_kfold_config : KFoldConfig := ⟨5, true, 42⟩

/-!  ## `train_test_split`

scikit-learn shuffles `0..n-1` with the seeded generator, takes the first
`ceil(test_size * n)` positions as the test set and the rest as the training
set.  The pseudo-random permutation itself is library internals, abstracted
as a function from seed and length to an index list.
-/

/-- A source of shuffles: for a seed and a length, an index list (sklearn's
`np.random.RandomState(seed).permutation(n)`). -/
def ShuffleFn : Type := Int → Nat → List Nat

/-- `ceil(test_size * n)`, sklearn's test-set size. -/
def nTestOf (ts : ℚ) (n : Nat) : Nat :=
  (Int.toNat ⌈ts * n⌉)

/-- The (train indices, test indices) produced by
`train_test_split(..., test_size, random_state)` on `n` rows. -/
def splitIndices (shuffle : ShuffleFn) (cfg : SplitConfig) (n : Nat) :
    List Nat × List Nat :=
  let p := shuffle cfg.random_state n
  let nt := nTestOf cfg.test_size n
  (p.drop nt, p.take nt)

/-- Index a `List ℚ` of targets at the given positions. -/
def selectQ (y : List ℚ) (idx : List Nat) : List ℚ :=
  idx.map (fun i => y.getD i 0)

/-- `train_test_split(X, y, test_size=cfg.test_size,
random_state=cfg.random_state)` returning
`(X_train, X_val, y_train, y_val)`. -/
def trainTestSplit (shuffle : ShuffleFn) (cfg : SplitConfig)
    (X : DataFrame) (y : List ℚ) :
    DataFrame × DataFrame × List ℚ × List ℚ :=
  let (trainIdx, testIdx) := splitIndices shuffle cfg X.nrows
  (X.selectRows trainIdx, X.selectRows testIdx, selectQ y trainIdx, selectQ y testIdx)

/-!  ## Metrics

`mean_absolute_error`, `mean_squared_error` and `r2_score` over `ℚ`
(the scripts' `RMSE = sqrt(MSE)` is display formatting of the same MSE).
-/

/-- Arithmetic mean (0 for an empty list, as the scripts never score an
empty validation set). -/
def meanQ (l : List ℚ) : ℚ := l.sum / l.length

/-- `mean_absolute_error(y, yp)`. -/
def mae (y yp : List ℚ) : ℚ :=
  meanQ ((y.zip yp).map (fun p => |p.1 - p.2|))

/-- `mean_squared_error(y, yp)`. -/
def mse (y yp : List ℚ) : ℚ :=
  meanQ ((y.zip yp).map (fun p => (p.1 - p.2) ^ 2))

/-- `r2_score(y, yp)`. -/
def r2_score (y yp : List ℚ) : ℚ :=
  1 - ((y.zip yp).map (fun p => (p.1 - p.2) ^ 2)).sum
        / ((y.map (fun v => (v - meanQ y) ^ 2)).sum)

/-!  ## The scripts -/

/-- `TARGET = "price"` (`train_model_clean.py` line 97, `validate_cv.py`
line 21). -/
def TARGET : String := "price"

/-- `X = df.drop(columns=[TARGET, "index"])` of `train_model_clean.py`. -/
def train_X (df : DataFrame) : DataFrame := df.drop [TARGET, "index"]

/-- `y = df[TARGET]` of `train_model_clean.py` (numeric target column). -/
def train_y (df : DataFrame) : List ℚ :=
  (df.numVals TARGET).map (fun v => v.getD 0)

/-- `cat_cols = X.select_dtypes(include=["object"]).columns.tolist()`. -/
def cat_cols (X : DataFrame) : List String := X.selectObjectCols

/-- `num_cols = [c for c in X.columns if c not in cat_cols]`. -/
def num_cols (X : DataFrame) : List String :=
  X.columns.filter (fun c => c ∉ cat_cols X)

/-- The result of a run of `train_model_clean.py`: the fitted pipeline and
the validation metrics it prints. -/
structure TrainResult (M : Type) where
  fitted : FittedPipeline M
  mae_val : ℚ
  mse_val : ℚ
  r2_val : ℚ

/-- A run of `train_model_clean.py` on the loaded frame `df`: separate
features and target, detect column types, split 80/20 with seed 42, fit the
pipeline on the training part, predict the validation part, score. -/
def train_script_run {M : Type} (shuffle : ShuffleFn) (reg : Regressor M)
    (df : DataFrame) : Except String (TrainResult M) :=
  let X := train_X df
  let y := train_y df
  let cc := cat_cols X
  let nc := num_cols X
  let split := trainTestSplit shuffle train_split_config X y
  let Xtr := split.1
  let Xval := split.2.1
  let ytr := split.2.2.1
  let yval := split.2.2.2
  let pl := pipelineFit reg nc cc Xtr ytr
  (pipelinePredict reg pl Xval).map (fun ypred =>
    ⟨pl, mae yval ypred, mse yval ypred, r2_score yval ypred⟩)

/-- The straight-line five-call composition the spec describes for the
training path — split, then fit (preprocessing fit on the training rows and
the regressor fit on their transform), then transform the held-out rows,
then predict each transformed row, then score.  Written from the spec's
words, to be compared with `train_script_run`. -/
def spec_five_calls {M : Type} (shuffle : ShuffleFn) (reg : Regressor M)
    (df : DataFrame) : Except String (TrainResult M) :=
  let X := train_X df
  let y := train_y df
  let split := trainTestSplit shuffle train_split_config X y
  let fp := fitPre (num_cols X) (cat_cols X) split.1
  let m := reg.fit (transformAll fp split.1) split.2.2.1
  (transformChecked fp split.2.1).map (fun rows =>
    let ypred := rows.map (reg.predictRow m)
    ⟨⟨fp, m⟩, mae split.2.2.2 ypred, mse split.2.2.2 ypred,
      r2_score split.2.2.2 ypred⟩)

/-- `submission = pd.DataFrame(dict(index=submission_index, price=predictions))`
of `predict_clean.py` (lines 116-119). -/
def submission_df (n : Nat) (idxData : ColData) (preds : List ℚ) : DataFrame :=
  ⟨n, [⟨"index", idxData⟩, ⟨"price", .num (preds.map some)⟩]⟩

/-- Lines 97-102 of `predict_clean.py`: preserve the `index` column and drop
it from the features when present; otherwise synthesize `range(len(test_df))`
and keep all columns as features. -/
def predict_script_prepare (test_df : DataFrame) : ColData × DataFrame :=
  if "index" ∈ test_df.columns then
    (test_df.colData "index", test_df.drop ["index"])
  else
    (.num ((List.range test_df.nrows).map (fun i : Nat => some (i : ℚ))), test_df)

/-- A run of `predict_clean.py` given the loaded model and the loaded test
frame: prepare index and features, predict, and format the submission. -/
def predict_script_run {M : Type} (reg : Regressor M) (model : FittedPipeline M)
    (test_df : DataFrame) : Except String DataFrame :=
  let prep := predict_script_prepare test_df
  (pipelinePredict reg model prep.2).map (fun preds =>
    submission_df test_df.nrows prep.1 preds)

/-!  ## `feature_importance.py` -/

/-- Sort order of `sort_values("importance", ascending=False)`: larger
importance first. -/
def impGe (a b : String × ℚ) : Prop := b.2 ≤ a.2

instance : DecidableRel impGe := fun a b => by
  unfold impGe; infer_instance

instance : IsTotal (String × ℚ) impGe :=
  ⟨fun a b => le_total b.2 a.2⟩

instance : IsTrans (String × ℚ) impGe :=
  ⟨fun _ _ _ h h' => le_trans h' h⟩

/-- `imp_df`: the (feature name, importance) pairs sorted by importance,
descending (`feature_importance.py` lines 24-27). -/
def feature_importance_table (names : List String) (imps : List ℚ) :
    List (String × ℚ) :=
  (names.zip imps).insertionSort impGe

/-- `imp_df.head(20)` — the rows both printed and written to the CSV
(`feature_importance.py` lines 30-32). -/
def feature_importance_top20 (names : List String) (imps : List ℚ) :
    List (String × ℚ) :=
  (feature_importance_table names imps).take 20

/-!  ## `check_model_accuracy.py` -/

/-- What `check_model_accuracy.py` does before loading anything: if the
model file is missing it prints its own message and exits early (lines
19-22); otherwise it proceeds. -/
inductive AccuracyGuard
  | earlyExit (msg : String)
  | proceeded
deriving DecidableEq, Repr

/-- The `os.path.exists('model_pipeline.pkl')` guard of
`check_model_accuracy.py`. -/
def check_accuracy_guard (modelFileExists : Bool) : AccuracyGuard :=
  if modelFileExists then .proceeded
  else .earlyExit "Model file not found! Please run train_model_clean.py first"

/-- `X = df.drop(columns=["price", "index"])` of `check_model_accuracy.py`. -/
def check_X (df : DataFrame) : DataFrame := df.drop ["price", "index"]

/-- `y = df["price"]` of `check_model_accuracy.py`. -/
def check_y (df : DataFrame) : List ℚ :=
  (df.numVals "price").map (fun v => v.getD 0)

/-- The split call of `train_model_clean.py` applied to its features and
target. -/
def train_script_split (shuffle : ShuffleFn) (df : DataFrame) :
    DataFrame × DataFrame × List ℚ × List ℚ :=
  trainTestSplit shuffle train_split_config (train_X df) (train_y df)

/-- The split call of `check_model_accuracy.py` applied to its features and
target. -/
def check_script_split (shuffle : ShuffleFn) (df : DataFrame) :
    DataFrame × DataFrame × List ℚ × List ℚ :=
  trainTestSplit shuffle check_split_config (check_X df) (check_y df)

/-!  ## `eda_report.py` -/

/-- `DATA_PATHS_TO_TRY` of `eda_report.py` (lines 9-14). -/
def DATA_PATHS_TO_TRY : List String :=
  ["data/train.csv", "data/train_clean.csv", "train.csv", "train_clean.csv"]

/-- `load_data()` of `eda_report.py` (lines 23-30): read the first existing
candidate path, and raise its own `FileNotFoundError` when none exists.
The filesystem and the CSV reader are parameters. -/
def eda_load_data (fsExists : String → Bool) (readCsv : String → DataFrame) :
    Except String DataFrame :=
  match DATA_PATHS_TO_TRY.find? fsExists with
  | some p => .ok (readCsv p)
  | none => .error "Could not find dataset. Put train.csv inside a data folder or update DATA_PATHS_TO_TRY."

/-!  ## Per-script I/O shape

Each script is summarised by the ordered list of its I/O actions
(reads, writes, prints), transcribed from the source with consecutive
prints collapsed.
-/

/-- One I/O action of a script. -/
inductive IOAction
  | readCsv (path : String)
  | loadModel (path : String)
  | saveModel (path : String)
  | writeCsv (path : String)
  | savePng (path : String)
  | printOut
deriving DecidableEq, Repr

/-- A script, as a name and its I/O actions in program order. -/
structure ScriptIO where
  name : String
  actions : List IOAction
deriving DecidableEq, Repr

/-- `eda_clean.py`: read `data/data.csv`, print summaries. -/
def eda_clean_io : ScriptIO :=
  ⟨"eda_clean.py", [.readCsv "data/data.csv", .printOut]⟩

/-- `find_target_clean.py`: read both CSVs, print the detected target. -/
def find_target_clean_io : ScriptIO :=
  ⟨"find_target_clean.py",
    [.readCsv "data/data.csv", .readCsv "data/test.csv", .printOut]⟩

/-- `train_model_clean.py`: read the CSV, print, save the model, print. -/
def train_model_clean_io : ScriptIO :=
  ⟨"train_model_clean.py",
    [.readCsv "data/data.csv", .printOut, .saveModel "model_pipeline.pkl",
      .printOut]⟩

/-- `validate_cv.py`: print, read the CSV, print CV results. -/
def validate_cv_io : ScriptIO :=
  ⟨"validate_cv.py", [.printOut, .readCsv "data/data.csv", .printOut]⟩

/-- `predict_clean.py`: load the model, print, read the test CSV, print,
write the submission, print. -/
def predict_clean_io : ScriptIO :=
  ⟨"predict_clean.py",
    [.loadModel "model_pipeline.pkl", .printOut, .readCsv "data/test.csv",
      .printOut, .writeCsv "submission.csv", .printOut]⟩

/-- `feature_importance.py`: print, load the model, print the top 20, write
them to a CSV, print.  It reads no CSV. -/
def feature_importance_io : ScriptIO :=
  ⟨"feature_importance.py",
    [.printOut, .loadModel "model_pipeline.pkl", .printOut,
      .writeCsv "outputs/feature_importance_top20.csv", .printOut]⟩

/-- `plots.py`: read the CSV, save the five figures, print. -/
def plots_io : ScriptIO :=
  ⟨"plots.py",
    [.readCsv "data/data.csv", .savePng "outputs/01_price_hist.png",
      .savePng "outputs/02_log_price_hist.png",
      .savePng "outputs/03_total_area_vs_price.png",
      .savePng "outputs/04_price_by_district_boxplot.png",
      .savePng "outputs/05_corr_heatmap.png", .printOut]⟩

/-- `eda_report.py`: read the first existing CSV candidate, write the
summary tables and figures, print. -/
def eda_report_io : ScriptIO :=
  ⟨"eda_report.py",
    [.readCsv "data/train.csv", .writeCsv "outputs_eda/dataset_summary.csv",
      .writeCsv "outputs_eda/missing_values.csv",
      .writeCsv "outputs_eda/duplicates.csv",
      .savePng "outputs_eda/price_hist_raw.png", .printOut]⟩

/-- `check_model_accuracy.py`: print, load the model, print, read the CSV,
print the metrics. -/
def check_model_accuracy_io : ScriptIO :=
  ⟨"check_model_accuracy.py",
    [.printOut, .loadModel "model_pipeline.pkl", .printOut,
      .readCsv "data/data.csv", .printOut]⟩

/-- `demo_predict_one.py`: print, load the model, read the CSV, print the
one prediction. -/
def demo_predict_one_io : ScriptIO :=
  ⟨"demo_predict_one.py",
    [.printOut, .loadModel "model_pipeline.pkl", .readCsv "data/data.csv",
      .printOut]⟩

/-- All ten scripts of the repository. -/
def all_scripts : List ScriptIO :=
  [eda_clean_io, find_target_clean_io, train_model_clean_io, validate_cv_io,
    predict_clean_io, feature_importance_io, plots_io, eda_report_io,
    check_model_accuracy_io, demo_predict_one_io]

/-- Whether a script reads some CSV file. -/
def ScriptIO.readsCsv (s : ScriptIO) : Bool :=
  s.actions.any (fun a => match a with
    | .readCsv _ => true
    | _ => false)

/-- Whether a script loads the serialized model. -/
def ScriptIO.loadsModel (s : ScriptIO) : Bool :=
  s.actions.any (fun a => match a with
    | .loadModel _ => true
    | _ => false)

/-- Whether a script prints or writes results (console output, CSV, figure,
or saved model). -/
def ScriptIO.printsOrWrites (s : ScriptIO) : Bool :=
  s.actions.any (fun a => match a with
    | .printOut => true
    | .writeCsv _ => true
    | .savePng _ => true
    | .saveModel _ => true
    | _ => false)

/-!  ## Shared concrete sample data (used to instantiate the theorems) -/

/-- A concrete instance of the abstract regressor: predicts the training
target mean for every row. -/
def meanReg : Regressor ℚ := ⟨fun _ y => meanQ y, fun m _ => m⟩

/-- A small concrete training frame: one numeric and one object column. -/
def sampleTrainDf : DataFrame :=
  ⟨2, [⟨"a", .num [some 1, some 3]⟩, ⟨"g", .obj [some "y", some "n"]⟩]⟩

/-- The pipeline fitted on the sample training frame. -/
def sampleModel : FittedPipeline ℚ :=
  pipelineFit meanReg ["a"] ["g"] sampleTrainDf [10, 20]

/-- A concrete test frame with the training schema and no `index` column. -/
def sampleTest : DataFrame :=
  ⟨1, [⟨"a", .num [none]⟩, ⟨"g", .obj [some "q"]⟩]⟩

/-- A concrete test frame carrying an `index` column ahead of the features. -/
def sampleTestIdx : DataFrame :=
  ⟨1, [⟨"index", .num [some 7]⟩, ⟨"a", .num [some 2]⟩, ⟨"g", .obj [some "y"]⟩]⟩

/-- A concrete frame whose columns do not match the fitted schema. -/
def sampleMismatch : DataFrame := ⟨1, [⟨"b", .num [some 2]⟩]⟩

/-- The submission produced by the batch-prediction script on `sampleTest`. -/
def sampleSub : DataFrame :=
  match predict_script_run meanReg sampleModel sampleTest with
  | .ok s => s
  | .error _ => ⟨0, []⟩

/-!  ## Helper lemmas -/

/-- Mapping over an `Except` yields `.ok b` exactly when the source was
`.ok a` with `f a = b`. -/
theorem except_map_ok {ε α β : Type} (f : α → β) (e : Except ε α) (b : β) :
    e.map f = .ok b ↔ ∃ a, e = .ok a ∧ f a = b := by
  cases e <;> simp [Except.map]

/-- Two successive `Except.map`s fuse. -/
theorem except_map_map {ε α β γ : Type} (g : α → β) (f : β → γ)
    (e : Except ε α) : (e.map g).map f = e.map (fun a => f (g a)) := by
  cases e <;> rfl

/-- Dropping columns keeps the row count. -/
theorem drop_nrows (df : DataFrame) (names : List String) :
    (df.drop names).nrows = df.nrows := rfl

/-- Dropping a column no frame column carries is the identity. -/
theorem drop_of_not_mem (df : DataFrame) (n : String)
    (h : n ∉ df.columns) : df.drop [n] = df := by
  have hmem : ∀ c ∈ df.cols, c.name ≠ n := by
    intro c hc he
    exact h (by simpa [DataFrame.columns, he] using List.mem_map_of_mem Col.name hc)
  unfold DataFrame.drop
  have : df.cols.filter (fun c => ¬ [n].contains c.name) = df.cols := by
    apply List.filter_eq_self.mpr
    intro c hc
    simpa using hmem c hc
  rw [this]

/-- The transform of a frame has one output row per input row. -/
theorem transformAll_length (fp : FittedPre) (df : DataFrame) :
    (transformAll fp df).length = df.nrows := by
  simp [transformAll]

/-- Preparing the test frame never changes the row count. -/
theorem prepare_nrows (df : DataFrame) :
    (predict_script_prepare df).2.nrows = df.nrows := by
  unfold predict_script_prepare
  split <;> rfl

/-- Looking up a column that is present in a well-formed frame yields data
of the frame's row count. -/
theorem colData_length_of_mem (df : DataFrame) (n : String) (hwf : df.WF)
    (h : n ∈ df.columns) : (df.colData n).length = df.nrows := by
  obtain ⟨c, hc, hn⟩ := List.mem_map.mp h
  cases hf : df.findCol n with
  | none =>
    exfalso
    have := List.find?_eq_none.mp hf c hc
    simp [hn] at this
  | some c' =>
    have hc' : c' ∈ df.cols := List.mem_of_find?_eq_some hf
    simp only [DataFrame.colData, hf, Option.map_some, Option.getD_some]
    exact hwf c' hc'

/-- A successful pipeline prediction is exactly the per-row predictions of
the transformed rows, in row order. -/
theorem pipelinePredict_ok_eq {M : Type} (reg : Regressor M)
    (p : FittedPipeline M) (df : DataFrame) (r : List ℚ)
    (h : pipelinePredict reg p df = .ok r) :
    r = (List.range df.nrows).map (fun i =>
      reg.predictRow p.model (transformRow p.pre df i)) := by
  unfold pipelinePredict transformChecked at h
  by_cases hs : df.schema = p.pre.schemaIn
  · simp only [hs, if_pos, Except.map] at h
    have := Except.ok.inj h
    rw [← this]
    simp [transformAll, List.map_map]
  · simp [hs, Except.map] at h

/-- A successful pipeline prediction has one prediction per input row. -/
theorem pipelinePredict_ok_length {M : Type} (reg : Regressor M)
    (p : FittedPipeline M) (df : DataFrame) (r : List ℚ)
    (h : pipelinePredict reg p df = .ok r) : r.length = df.nrows := by
  rw [pipelinePredict_ok_eq reg p df r h]
  simp

/-!  ## Claim theorems -/

/-- C1: the training and cross-validation scripts build the same fixed
two-stage pipeline (median imputation for every numeric column,
most-frequent imputation plus one-hot with unknowns ignored for every
object-dtype column, Random Forest second stage), and the two stages are
fit and applied as a single unit, so prediction uses exactly the transform
fitted on the training frame. -/
theorem C1_same_pipeline :
    train_pipeline_config = cv_pipeline_config
    ∧ train_pipeline_config =
        ⟨.median, .most_frequent, .ignore, ⟨400, 42, -1⟩⟩
    ∧ (∀ X c, c ∈ cat_cols X ↔
        ∃ col ∈ X.cols, col.name = c ∧ col.data.dtype = Dtype.obj)
    ∧ (∀ X c, c ∈ num_cols X ↔ c ∈ X.columns ∧ c ∉ cat_cols X)
    ∧ (∀ (M : Type) (reg : Regressor M) nc cc X y df,
        pipelinePredict reg (pipelineFit reg nc cc X y) df
          = (transformChecked (fitPre nc cc X) df).map (fun rows =>
              rows.map (reg.predictRow
                (reg.fit (transformAll (fitPre nc cc X) X) y)))) := by
  refine ⟨rfl, rfl, ?_, ?_, fun M reg nc cc X y df => rfl⟩
  · intro X c
    simp only [cat_cols, DataFrame.selectObjectCols, List.mem_filterMap]
    constructor
    · rintro ⟨col, hm, h⟩
      rcases col with ⟨nm, cd⟩
      cases cd with
      | num vs => exact absurd h (by simp)
      | obj vs =>
        have : nm = c := by simpa using h
        exact ⟨⟨nm, .obj vs⟩, hm, this, rfl⟩
    · rintro ⟨col, hm, h1, h2⟩
      rcases col with ⟨nm, cd⟩
      cases cd with
      | num vs => simp [ColData.dtype] at h2
      | obj vs => exact ⟨⟨nm, .obj vs⟩, hm, by simpa using h1⟩
  · intro X c
    simp [num_cols, List.mem_filter]

/-- C2: the training script's configuration is exactly the spec's parameter
choices: 400 trees, median imputation, an 80/20 split (`test_size = 1/5`),
and seed 42 for both the split and the forest (and the cross-validation
script uses the same forest parameters and a seeded 5-fold). -/
theorem C2_training_parameters :
    train_pipeline_config.numImputer = ImputeStrategy.median
    ∧ train_pipeline_config.rf.n_estimators = 400
    ∧ train_pipeline_config.rf.random_state = 42
    ∧ train_split_config.test_size = 1 / 5
    ∧ train_split_config.random_state = 42
    ∧ cv_pipeline_config.rf = ⟨400, 42, -1⟩
    ∧ cv_kfold_config = ⟨5, true, 42⟩ :=
  ⟨rfl, rfl, rfl, rfl, rfl, rfl, rfl⟩

/-- C4: the training script is the straight-line split → fit → transform →
predict → score composition written from the spec's words, and the
prediction script's predict path is the fixed composition on the frame
without the `index` column, regardless of which branch prepared it. -/
theorem C4_straight_line_composition :
    (∀ (M : Type) (shuffle : ShuffleFn) (reg : Regressor M) (df : DataFrame),
      train_script_run shuffle reg df = spec_five_calls shuffle reg df)
    ∧ (∀ (M : Type) (reg : Regressor M) (model : FittedPipeline M)
        (test_df : DataFrame),
      predict_script_run reg model test_df
        = (pipelinePredict reg model (test_df.drop ["index"])).map
            (fun preds =>
              submission_df test_df.nrows (predict_script_prepare test_df).1 preds)) := by
  constructor
  · intro M shuffle reg df
    simp only [train_script_run, spec_five_calls, pipelinePredict, pipelineFit,
      except_map_map]
  · intro M reg model test_df
    by_cases h : "index" ∈ test_df.columns
    · simp [predict_script_run, predict_script_prepare, h]
    · simp [predict_script_run, predict_script_prepare, h,
        drop_of_not_mem test_df "index" h]

/-- C5: prediction succeeds exactly when the test frame's feature columns
match the columns the pipeline was fit on, and on a mismatch the library
raises its feature-name error. -/
theorem C5_feature_columns_invariant :
    ∀ (M : Type) (reg : Regressor M) (p : FittedPipeline M) (df : DataFrame),
      ((∃ r, pipelinePredict reg p df = .ok r) ↔ df.schema = p.pre.schemaIn)
      ∧ (df.schema ≠ p.pre.schemaIn →
          pipelinePredict reg p df =
            .error "The feature names should match those that were passed during fit") := by
  intro M reg p df
  by_cases h : df.schema = p.pre.schemaIn
  · refine ⟨⟨fun _ => h, fun _ => ?_⟩, fun hne => absurd h hne⟩
    exact ⟨(transformAll p.pre df).map (reg.predictRow p.model),
      by simp [pipelinePredict, transformChecked, h, Except.map]⟩
  · refine ⟨⟨fun ⟨r, hr⟩ => ?_, fun he => absurd he h⟩, fun _ => ?_⟩
    · simp [pipelinePredict, transformChecked, h, Except.map] at hr
    · simp [pipelinePredict, transformChecked, h, Except.map]

/-- Witness for C5: on a concrete frame whose columns differ from the
fitted schema, prediction raises the feature-name error. -/
theorem C5_witness :
    pipelinePredict meanReg sampleModel sampleMismatch =
      .error "The feature names should match those that were passed during fit" :=
  (C5_feature_columns_invariant ℚ meanReg sampleModel sampleMismatch).2 (by decide)

/-- C3: when the batch-prediction script succeeds it produces a two-column
submission whose columns are the row index and the predicted price, with
exactly one output row per input row; and the regression target is the
`price` column. -/
theorem C3_submission_shape (M : Type) (reg : Regressor M)
    (model : FittedPipeline M) (test_df sub : DataFrame)
    (hwf : test_df.WF)
    (h : predict_script_run reg model test_df = .ok sub) :
    sub.columns = ["index", "price"]
    ∧ sub.nrows = test_df.nrows
    ∧ sub.WF
    ∧ TARGET = "price" := by
  unfold predict_script_run at h
  obtain ⟨preds, hp, hsub⟩ := (except_map_ok _ _ _).mp h
  have hlen : preds.length = test_df.nrows := by
    rw [pipelinePredict_ok_length reg model _ preds hp, prepare_nrows]
  subst hsub
  refine ⟨rfl, rfl, ?_, rfl⟩
  intro c hc
  simp only [submission_df, List.mem_cons, List.not_mem_nil, or_false] at hc
  rcases hc with hc | hc
  · subst hc
    show (predict_script_prepare test_df).1.length = test_df.nrows
    unfold predict_script_prepare
    by_cases hidx : "index" ∈ test_df.columns
    · rw [if_pos hidx]
      exact colData_length_of_mem test_df "index" hwf hidx
    · rw [if_neg hidx]
      show (ColData.num ((List.range test_df.nrows).map (fun i : Nat => some (i : ℚ)))).length
        = test_df.nrows
      rw [ColData.length, List.length_map, List.length_range]
  · subst hc
    simpa [ColData.length] using hlen

/-- Witness for C3: the concrete submission computed on the sample test
frame has the stated shape. -/
theorem C3_witness :
    sampleSub.columns = ["index", "price"]
    ∧ sampleSub.nrows = sampleTest.nrows
    ∧ sampleSub.WF
    ∧ TARGET = "price" :=
  C3_submission_shape ℚ meanReg sampleModel sampleTest sampleSub (by decide) rfl

/-- C8: when the test frame has no `index` column the prediction script
synthesizes `0..n-1` as the index and keeps all columns as features; when
one is present it is copied unchanged and removed from the features; and in
either case the submission pairs the `i`-th prediction with the `i`-th
source row. -/
theorem C8_index_handling (test_df : DataFrame) :
    ("index" ∉ test_df.columns →
      predict_script_prepare test_df
        = (.num ((List.range test_df.nrows).map (fun i : Nat => some (i : ℚ))), test_df))
    ∧ ("index" ∈ test_df.columns →
      predict_script_prepare test_df
        = (test_df.colData "index", test_df.drop ["index"]))
    ∧ (∀ (M : Type) (reg : Regressor M) (model : FittedPipeline M)
        (sub : DataFrame),
        predict_script_run reg model test_df = .ok sub →
        sub = submission_df test_df.nrows (predict_script_prepare test_df).1
          ((List.range test_df.nrows).map (fun i =>
            reg.predictRow model.model
              (transformRow model.pre (predict_script_prepare test_df).2 i)))) := by
  refine ⟨fun h => by simp [predict_script_prepare, h],
          fun h => by simp [predict_script_prepare, h], ?_⟩
  intro M reg model sub h
  unfold predict_script_run at h
  obtain ⟨preds, hp, hsub⟩ := (except_map_ok _ _ _).mp h
  have := pipelinePredict_ok_eq reg model _ preds hp
  rw [prepare_nrows] at this
  rw [← hsub, this]

/-- Witness for C8: the concrete branches and the concrete pairing. -/
theorem C8_witness :
    predict_script_prepare sampleTest
      = (.num ((List.range sampleTest.nrows).map (fun i : Nat => some (i : ℚ))),
          sampleTest)
    ∧ predict_script_prepare sampleTestIdx
      = (sampleTestIdx.colData "index", sampleTestIdx.drop ["index"])
    ∧ sampleSub = submission_df sampleTest.nrows
        (predict_script_prepare sampleTest).1
        ((List.range sampleTest.nrows).map (fun i =>
          meanReg.predictRow sampleModel.model
            (transformRow sampleModel.pre (predict_script_prepare sampleTest).2 i))) :=
  ⟨(C8_index_handling sampleTest).1 (by decide),
   (C8_index_handling sampleTestIdx).2.1 (by decide),
   (C8_index_handling sampleTest).2.2 ℚ meanReg sampleModel sampleSub rfl⟩

/-- C9: the accuracy-verification script prepares the same features and
target as the training script and calls the splitting function with the
same `test_size` and `random_state`, so the two splits are equal; and for
any shuffle that is duplicate-free the validation indices are disjoint from
the training indices, so the metrics are computed on rows the model was
not fit on. -/
theorem C9_split_reproducibility :
    (∀ df, check_X df = train_X df)
    ∧ (∀ df, check_y df = train_y df)
    ∧ (∀ (shuffle : ShuffleFn) (df : DataFrame),
        check_script_split shuffle df = train_script_split shuffle df)
    ∧ (∀ (shuffle : ShuffleFn) (n : Nat), (shuffle 42 n).Nodup →
        List.Disjoint (splitIndices shuffle train_split_config n).2
          (splitIndices shuffle train_split_config n).1) := by
  refine ⟨fun df => rfl, fun df => rfl, fun s df => rfl, ?_⟩
  intro shuffle n h
  exact List.disjoint_take_drop h (le_refl _)

/-- Witness for C9: with a concrete duplicate-free shuffle on five rows the
validation indices are disjoint from the training indices. -/
theorem C9_witness :
    List.Disjoint (splitIndices (fun _ n => List.range n) train_split_config 5).2
      (splitIndices (fun _ n => List.range n) train_split_config 5).1 :=
  C9_split_reproducibility.2.2.2 (fun _ n => List.range n) 5 (by decide)

/-- C10: the feature-importance rows, both printed and written, number at
most 20, are sorted by importance in non-increasing order, and each pairs a
transformed feature name with its importance from the model. -/
theorem C10_importance_output (names : List String) (imps : List ℚ) :
    (feature_importance_top20 names imps).length ≤ 20
    ∧ List.Sorted impGe (feature_importance_top20 names imps)
    ∧ ∀ r ∈ feature_importance_top20 names imps, r ∈ names.zip imps := by
  refine ⟨?_, ?_, ?_⟩
  · simp [feature_importance_top20]
  · exact List.Pairwise.sublist (List.take_sublist _ _)
      (List.sorted_insertionSort impGe (names.zip imps))
  · intro r hr
    have h1 : r ∈ feature_importance_table names imps :=
      List.mem_of_mem_take hr
    exact (List.perm_insertionSort impGe (names.zip imps)).mem_iff.mp h1

/-- Witness for C10: a concrete row of the concrete sorted table comes from
the zipped input pairs. -/
theorem C10_witness :
    ("b", (2 : ℚ)) ∈ ["a", "b"].zip [(1 : ℚ), 2] :=
  (C10_importance_output ["a", "b"] [1, 2]).2.2 ("b", 2) (by decide)

/-- C6 counterexample: the accuracy-verification script does check for a
missing model file and exits early with its own message, and the EDA report
script raises its own error when no candidate data path exists — contrary
to the claim that no script does either. -/
theorem C6_counterexample :
    check_accuracy_guard false ≠ AccuracyGuard.proceeded
    ∧ eda_load_data (fun _ => false) (fun _ => ⟨0, []⟩)
        = .error "Could not find dataset. Put train.csv inside a data folder or update DATA_PATHS_TO_TRY." :=
  ⟨by decide, rfl⟩

/-- C6 amended: the pipeline scripts let library errors propagate, but the
accuracy-verification script proceeds exactly when the model file exists
(otherwise it exits early with its own message), and the EDA report script
succeeds exactly when some candidate path exists, reading the first such
path, and raises its own error otherwise. -/
theorem C6_amended_failure_handling :
    (∀ b, check_accuracy_guard b = AccuracyGuard.proceeded ↔ b = true)
    ∧ (∀ (fsExists : String → Bool) (readCsv : String → DataFrame),
        (∃ df, eda_load_data fsExists readCsv = .ok df)
          ↔ ∃ p ∈ DATA_PATHS_TO_TRY, fsExists p = true)
    ∧ (∀ (fsExists : String → Bool) (readCsv : String → DataFrame) p,
        DATA_PATHS_TO_TRY.find? fsExists = some p →
        eda_load_data fsExists readCsv = .ok (readCsv p)) := by
  refine ⟨fun b => by cases b <;> simp [check_accuracy_guard], ?_, ?_⟩
  · intro fsExists readCsv
    unfold eda_load_data
    cases hf : DATA_PATHS_TO_TRY.find? fsExists with
    | none =>
      simp only [Except.error.injEq]
      constructor
      · rintro ⟨df, hdf⟩
        exact absurd hdf (by simp)
      · rintro ⟨p, hp, hfs⟩
        exact absurd (List.find?_eq_none.mp hf p hp) (by simp [hfs])
    | some p =>
      have hmem : p ∈ DATA_PATHS_TO_TRY := List.mem_of_find?_eq_some hf
      have hfs : fsExists p = true := List.find?_some hf
      exact ⟨fun _ => ⟨p, hmem, hfs⟩, fun _ => ⟨readCsv p, rfl⟩⟩
  · intro fsExists readCsv p hp
    simp [eda_load_data, hp]

/-- Witness for C6: with a filesystem where only `train.csv` exists, the
EDA loader returns the frame read from `train.csv`. -/
theorem C6_witness :
    eda_load_data (fun p => p == "train.csv") (fun _ => sampleTrainDf)
      = .ok sampleTrainDf :=
  C6_amended_failure_handling.2.2 (fun p => p == "train.csv")
    (fun _ => sampleTrainDf) "train.csv" (by decide)

/-- C7 counterexample: `feature_importance.py` is a script of the
repository and it reads no CSV (it loads the serialized model instead) —
contrary to the claim that every script reads a CSV. -/
theorem C7_counterexample :
    feature_importance_io ∈ all_scripts
    ∧ feature_importance_io.readsCsv = false :=
  ⟨by decide, rfl⟩

/-- C7 amended: every script reads a CSV or loads the serialized model,
every script prints or writes results, and every script other than
`feature_importance.py` does read a CSV. -/
theorem C7_amended_io_shape :
    (∀ s ∈ all_scripts, (s.readsCsv || s.loadsModel) = true
      ∧ s.printsOrWrites = true)
    ∧ (∀ s ∈ all_scripts, s.name ≠ "feature_importance.py" →
        s.readsCsv = true) := by
  decide

/-- Witness for C7: the EDA script reads a CSV and prints results. -/
theorem C7_witness :
    ((eda_clean_io.readsCsv || eda_clean_io.loadsModel) = true
      ∧ eda_clean_io.printsOrWrites = true)
    ∧ eda_clean_io.readsCsv = true :=
  ⟨C7_amended_io_shape.1 eda_clean_io (by decide),
   C7_amended_io_shape.2 eda_clean_io (by decide) (by decide)⟩

end FlatPred
